import Mathlib

/-
  Verification development for the AMP web push publisher files
  (window messenger + helper frame + alternate subscription checker).

  The definitions below are a shallow embedding of the TypeScript sources:
  - WindowMessenger (window-messenger module): correlation registry,
    topic dispatch, listen/connect handshake, suspended handshake.
  - AmpWebPushHelperFrame / AlternateSubscriptionChecker
    (amp-web-push-helper-frame.ts): sequential origin prober.

  JavaScript objects used as string-keyed maps are modelled as association
  lists with JS property semantics (set overwrites, delete removes).
  Randomly generated message ids, promise resolvers, window objects,
  MessageChannel objects and callbacks are modelled as opaque tokens
  (String / Nat).  Browser URL parsing (the expression
  (new URL x).origin) is modelled as an abstract normalization function
  passed as a parameter.  Transport and promise side effects are made
  explicit as returned effect lists.
-/

/-- JavaScript values carried as message payloads (the data field is
typed any in the source; this small universe is enough for the claims). -/
inductive JVal where
  | jnull
  | jstr (s : String)
  | jnum (n : Int)
  | jbool (b : Bool)
deriving DecidableEq, Repr

/-- Wire payload posted over a MessagePort: the object
constructed in send / sendReply with fields id, topic, data, isReply
(isReply absent is modelled as false). -/
structure WireMsg where
  id : String
  topic : String
  data : JVal
  isReply : Bool
deriving DecidableEq, Repr

/-- Entry of the messages_ registry: the object stored by send and
sendReply, with fields message, topic, promiseResolver. -/
structure PendingMsg where
  message : JVal
  topic : String
  promiseResolver : Nat
deriving DecidableEq, Repr

/-- JS object property lookup on a string-keyed map. -/
def jlookup {β : Type} : List (String × β) → String → Option β
  | [], _ => none
  | (k, v) :: rest, key => if k = key then some v else jlookup rest key

/-- JS delete of a property. -/
def jerase {β : Type} : List (String × β) → String → List (String × β)
  | [], _ => []
  | (k, v) :: rest, key =>
      if k = key then jerase rest key else (k, v) :: jerase rest key

/-- JS property assignment (overwrites an existing key). -/
def jset {β : Type} (m : List (String × β)) (key : String) (v : β) :
    List (String × β) :=
  (key, v) :: jerase m key

theorem jlookup_jerase_self {β : Type} (m : List (String × β)) (k : String) :
    jlookup (jerase m k) k = none := by
  induction m with
  | nil => rfl
  | cons p rest ih =>
      obtain ⟨k', v⟩ := p
      by_cases h : k' = k
      · simp [jerase, h, ih]
      · simp [jerase, jlookup, h, ih]

theorem jlookup_jset_self {β : Type} (m : List (String × β)) (k : String)
    (v : β) : jlookup (jset m k v) k = some v := by
  simp [jset, jlookup]

/-- The static Topics getter of WindowMessenger. -/
structure MessengerTopics where
  CONNECT_HANDSHAKE : String
  NOTIFICATION_PERMISSION_STATE : String
  SERVICE_WORKER_STATE : String
  SERVICE_WORKER_REGISTRATION : String
  SERVICE_WORKER_QUERY : String
  ORIGIN_SUBSCRIPTION_STATE : String
deriving DecidableEq, Repr

/-- WindowMessenger.Topics, with the exact string constants of the source. -/
def Topics : MessengerTopics :=
  { CONNECT_HANDSHAKE := "topic-connect-handshake"
    NOTIFICATION_PERMISSION_STATE := "topic-notification-permission-state"
    SERVICE_WORKER_STATE := "topic-service-worker-state"
    SERVICE_WORKER_REGISTRATION := "topic-service-worker-registration"
    SERVICE_WORKER_QUERY := "topic-service-worker-query"
    ORIGIN_SUBSCRIPTION_STATE := "topic-origin-subscription-state" }

/-- Mutable state of one WindowMessenger instance.  windowReceivers lists
the message receivers currently registered on the window, each carrying
the allowedOrigins it was bound with; portReceivers counts receivers
registered on the message port.  channel_ and messagePort_ hold opaque
identities of the MessageChannel / MessagePort objects (none = null). -/
structure MessengerState where
  messages_ : List (String × PendingMsg)
  listeners_ : List (String × List Nat)
  connected_ : Bool
  listening_ : Bool
  connecting_ : Bool
  channel_ : Option Nat
  messagePort_ : Option Nat
  windowReceivers : List (List String)
  portReceivers : Nat
deriving DecidableEq, Repr

/-- State set up by the constructor. -/
def initialMessengerState : MessengerState :=
  { messages_ := []
    listeners_ := []
    connected_ := false
    listening_ := false
    connecting_ := false
    channel_ := none
    messagePort_ := none
    windowReceivers := []
    portReceivers := 0 }

/-- Observable side effects of a messenger operation:
portPost is messagePort_.postMessage, windowPost is
remoteWindowContext.postMessage of the handshake broadcast,
resolve is a call of a stored promiseResolver with the two-element
outcome (data plus a reply sender bound to boundId / boundTopic),
invoke is a call of a topic subscriber with the payload and a reply
sender bound to boundId / boundTopic. -/
inductive Effect where
  | portPost (w : WireMsg)
  | windowPost (target : Nat) (topic : String) (targetOrigin : String)
  | resolve (resolver : Nat) (data : JVal) (boundId : String)
      (boundTopic : String)
  | invoke (cb : Nat) (data : JVal) (boundId : String) (boundTopic : String)
deriving DecidableEq, Repr

/-- Whether an effect is a resolution of a pending exchange. -/
def Effect.isResolve : Effect → Bool
  | .resolve _ _ _ _ => true
  | _ => false

/-- WindowMessenger.send: posts a non-reply envelope under a freshly
generated id (the random id and the promise resolver are parameters)
and registers a pending exchange under that id. -/
def send (st : MessengerState) (freshId : String) (topic : String)
    (data : JVal) (resolver : Nat) : MessengerState × List Effect :=
  ({ st with messages_ := jset st.messages_ freshId ⟨data, topic, resolver⟩ },
   [Effect.portPost ⟨freshId, topic, data, false⟩])

/-- WindowMessenger.sendReply_: same as send but reuses the supplied id
and sets isReply. -/
def sendReply (st : MessengerState) (id : String) (topic : String)
    (data : JVal) (resolver : Nat) : MessengerState × List Effect :=
  ({ st with messages_ := jset st.messages_ id ⟨data, topic, resolver⟩ },
   [Effect.portPost ⟨id, topic, data, true⟩])

/-- WindowMessenger.onChannelMessageReceived_: if a pending exchange
exists for the id of the envelope and the envelope is a reply, the
exchange is deleted and its resolver called with the reply payload and a
reply sender bound to the envelope id and the topic stored in the
exchange; otherwise the envelope is dispatched to the subscribers of its
topic (a missing subscriber list means silent drop). -/
def onChannelMessageReceived (st : MessengerState) (e : WireMsg) :
    MessengerState × List Effect :=
  match jlookup st.messages_ e.id, e.isReply with
  | some existing, true =>
      ({ st with messages_ := jerase st.messages_ e.id },
       [Effect.resolve existing.promiseResolver e.data e.id existing.topic])
  | _, _ =>
      match jlookup st.listeners_ e.topic with
      | none => (st, [])
      | some ls =>
          (st, ls.map (fun cb => Effect.invoke cb e.data e.id e.topic))

/-- WindowMessenger.on (renamed, since on is a reserved word here):
appends the callback to the subscriber list of the topic, creating the
list when absent. -/
def onSubscribe (st : MessengerState) (topic : String) (cb : Nat) :
    MessengerState :=
  match jlookup st.listeners_ topic with
  | some l => { st with listeners_ := jset st.listeners_ topic (l ++ [cb]) }
  | none => { st with listeners_ := jset st.listeners_ topic [cb] }

/-- WindowMessenger.off: with a callback, looks up the subscriber list
and splices the callback out by identity — when the list is absent the
indexOf call dereferences undefined and throws (modelled as none);
without a callback, deletes the whole list when present. -/
def off (st : MessengerState) (topic : String) (cb : Option Nat) :
    Option MessengerState :=
  match cb with
  | some c =>
      match jlookup st.listeners_ topic with
      | none => none
      | some l =>
          if l.contains c then
            some { st with listeners_ := jset st.listeners_ topic (l.erase c) }
          else
            some st
  | none =>
      match jlookup st.listeners_ topic with
      | some _ => some { st with listeners_ := jerase st.listeners_ topic }
      | none => some st

/-- Synchronous outcome of the promise returned by listen / connect:
either the promise is left pending (the executor installed a receiver and
returned) or it settles rejected with the given error message. -/
inductive CallResult where
  | pending
  | rejectedCall (msg : String)
deriving DecidableEq, Repr

/-- WindowMessenger.listen, synchronous part of the promise executor.
The guards check connected_ and then listening_ (note: nothing in the
source ever assigns listening_ or connecting_, so those fields keep the
value false set by the constructor).  The Array.isArray guard always
passes here because allowedOrigins is typed as a list.  Passing the
guards registers a window message receiver bound to allowedOrigins. -/
def listen (st : MessengerState) (allowedOrigins : List String) :
    MessengerState × CallResult :=
  if st.connected_ then (st, .rejectedCall "Already connected.")
  else if st.listening_ then
    (st, .rejectedCall "Already listening for connections.")
  else
    ({ st with windowReceivers := st.windowReceivers ++ [allowedOrigins] },
     .pending)

/-- Continuation chained onto the listen promise: when
delayConnectHandshake is set it only logs; otherwise it sends the
CONNECT_HANDSHAKE acknowledgment and sets connected_.  The random id of
the acknowledgment send and its promise resolver are parameters. -/
def listenThen (st : MessengerState) (delayConnectHandshake : Bool)
    (freshId : String) (resolver : Nat) : MessengerState × List Effect :=
  if delayConnectHandshake then (st, [])
  else
    let r := send st freshId Topics.CONNECT_HANDSHAKE JVal.jnull resolver
    ({ r.1 with connected_ := true }, r.2)

/-- WindowMessenger.finishListenHandshake: sends the CONNECT_HANDSHAKE
acknowledgment and sets connected_. -/
def finishListenHandshake (st : MessengerState) (freshId : String)
    (resolver : Nat) : MessengerState × List Effect :=
  let r := send st freshId Topics.CONNECT_HANDSHAKE JVal.jnull resolver
  ({ r.1 with connected_ := true }, r.2)

/-- WindowMessenger.isAllowedOrigin_: the sender origin is accepted when
its canonical form equals the canonical form of some allow-list entry.
The browser expression (new URL x).origin is modelled by the abstract
normalization function norm. -/
def isAllowedOrigin (norm : String → String) (origin : String)
    (allowedOrigins : List String) : Bool :=
  allowedOrigins.any (fun allowedOrigin => norm allowedOrigin == norm origin)

/-- An inbound window message event: sender origin, message data and the
transferred ports.  message is none when the data is falsy, and
otherwise carries the topic property of the data (none = no topic). -/
structure WindowEvent where
  origin : String
  message : Option (Option String)
  ports : List Nat
deriving DecidableEq, Repr

/-- Outcome of the step 1 connection receiver. -/
inductive ListenRecv where
  | discarded
  | accepted
deriving DecidableEq, Repr

/-- WindowMessenger.onListenConnectionMessageReceived_: discards events
from non-allow-listed origins and events whose data is falsy or whose
topic is not CONNECT_HANDSHAKE (logging only); on the expected handshake
it removes the window receiver, adopts the first transferred port as
messagePort_, installs the channel message receiver on it, starts the
port, and resolves the listen promise. -/
def onListenConnectionMessageReceived (norm : String → String)
    (allowedOrigins : List String) (st : MessengerState) (ev : WindowEvent) :
    MessengerState × ListenRecv :=
  if !(isAllowedOrigin norm ev.origin allowedOrigins) then (st, .discarded)
  else
    match ev.message with
    | none => (st, .discarded)
    | some topicField =>
        if topicField ≠ some Topics.CONNECT_HANDSHAKE then (st, .discarded)
        else
          ({ st with
              windowReceivers := st.windowReceivers.erase allowedOrigins,
              messagePort_ := ev.ports.head?,
              portReceivers := st.portReceivers + 1 },
           .accepted)

/-- WindowMessenger.connect, synchronous part of the promise executor.
The two argument guards call reject but do not return, so execution
falls through them; the connected_ / connecting_ guards do return.  Past
the guards a MessageChannel is created (opaque identity freshChannel),
port1 is adopted as messagePort_, a receiver is installed and started on
it, and the handshake broadcast is posted to the remote window — unless
an argument was missing, in which case the postMessage line throws
(undefined.postMessage, or new URL undefined) after the state mutations;
the promise is already rejected then and the throw is swallowed by the
executor.  The returned CallResult is the settled promise outcome. -/
def connect (norm : String → String) (st : MessengerState)
    (remoteWindowContext : Option Nat) (expectedRemoteOrigin : Option String)
    (freshChannel : Nat) : MessengerState × List Effect × CallResult :=
  let argReject : Option String :=
    if remoteWindowContext.isNone then
      some "Provide a valid Window context to connect to."
    else if expectedRemoteOrigin.isNone then
      some "Provide an expected origin for the remote Window or provide the wildcard *."
    else none
  if st.connected_ then
    (st, [], .rejectedCall (argReject.getD "Already connected."))
  else if st.connecting_ then
    (st, [], .rejectedCall (argReject.getD "Already connecting."))
  else
    let st1 : MessengerState :=
      { st with channel_ := some freshChannel,
                messagePort_ := some freshChannel,
                portReceivers := st.portReceivers + 1 }
    match remoteWindowContext, expectedRemoteOrigin with
    | some w, some o =>
        (st1,
         [Effect.windowPost w Topics.CONNECT_HANDSHAKE
            (if o = "*" then "*" else norm o)],
         .pending)
    | _, _ => (st1, [], .rejectedCall (argReject.getD ""))

/-- Internal transitions available to a listening messenger after its
handshake broadcast has been accepted: arrival of a channel message,
subscribing, unsubscribing, and the explicit finishListenHandshake
call. -/
inductive LEvent where
  | channelMsg (e : WireMsg)
  | onSub (topic : String) (cb : Nat)
  | offSub (topic : String) (cb : Option Nat)
  | finishHandshake (freshId : String) (resolver : Nat)
deriving DecidableEq, Repr

/-- One internal transition of the messenger.  An exception thrown by
off leaves the state unchanged. -/
def listenerStep (st : MessengerState) (ev : LEvent) :
    MessengerState × List Effect :=
  match ev with
  | .channelMsg e => onChannelMessageReceived st e
  | .onSub t cb => (onSubscribe st t cb, [])
  | .offSub t cb =>
      match off st t cb with
      | some st1 => (st1, [])
      | none => (st, [])
  | .finishHandshake freshId resolver => finishListenHandshake st freshId resolver

/-- Runs a sequence of internal transitions, collecting all effects. -/
def runTrace (st : MessengerState) : List LEvent → MessengerState × List Effect
  | [] => (st, [])
  | ev :: rest =>
      let r1 := listenerStep st ev
      let r2 := runTrace r1.1 rest
      (r2.1, r1.2 ++ r2.2)

/-- The connect-handshake acknowledgment on the wire: a non-reply post
of the CONNECT_HANDSHAKE topic over the message port. -/
def Effect.isHandshakeAck : Effect → Bool
  | .portPost w => w.topic == Topics.CONNECT_HANDSHAKE && !w.isReply
  | _ => false

/-- Whether an event is the explicit finishListenHandshake call. -/
def LEvent.isFinish : LEvent → Bool
  | .finishHandshake _ _ => true
  | _ => false

/-
  Sequential origin prober (amp-web-push-helper-frame.ts).
-/

/-- SubscriptionStateMessage as assembled by the remote frame: fields
other than notificationPermission stay undefined (none) when there is no
controlling service worker. -/
structure SubscriptionStateMessage where
  notificationPermission : String
  serviceWorkerUrl : Option String
  serviceWorkerState : Option String
  serviceWorkerIsControllingFrame : Option Bool
  serviceWorkerSubscriptionState : Option Bool
deriving DecidableEq, Repr

/-- The JS expression s.indexOf frag !== -1 on the underlying character
lists. -/
def listContainsSub : List Char → List Char → Bool
  | hay, needle =>
      needle.isPrefixOf hay ||
        match hay with
        | [] => false
        | _ :: t => listContainsSub t needle

/-- String containment test used for the worker script URL check. -/
def strContains (s frag : String) : Bool :=
  listContainsSub s.toList frag.toList

/-- AlternateSubscriptionChecker.isSubscribedToAltOrigin, the evaluation
of the reported state after the reply arrives: the five-conjunct
predicate with JS short-circuit evaluation.  Returns none when the
evaluation throws (the fifth conjunct dereferences an undefined
serviceWorkerUrl). -/
def isSubscribedToAltOrigin (s : SubscriptionStateMessage) : Option Bool :=
  if s.notificationPermission = "granted" then
    if s.serviceWorkerIsControllingFrame = some true then
      if s.serviceWorkerState = some "activated" then
        if s.serviceWorkerSubscriptionState = some true then
          match s.serviceWorkerUrl with
          | some u => some (strContains u "OneSignalSDKWorker.js")
          | none => none
        else some false
      else some false
    else some false
  else some false

/-- Outcome of AlternateSubscriptionChecker.run over the sequence of
state reports received from the probe targets, in list order: completed
normally, frozen forever on the never-resolving promise, or aborted by a
thrown evaluation. -/
inductive RunOutcome where
  | completed
  | frozen
  | crashed
deriving DecidableEq, Repr

/-- AlternateSubscriptionChecker.run: probes the targets strictly in
order; a target evaluated as subscribed makes run await a promise that
never resolves (timeoutForever), so run never completes; a target whose
evaluation fails lets the loop continue; an empty list completes at
once. -/
def runChecker : List SubscriptionStateMessage → RunOutcome
  | [] => .completed
  | s :: rest =>
      match isSubscribedToAltOrigin s with
      | some true => .frozen
      | some false => runChecker rest
      | none => .crashed

/-- The helper frame entry function awaits runChecker and only then
calls finishListenHandshake on the suspended helper frame messenger. -/
def outerRunFinishesHandshake (states : List SubscriptionStateMessage) :
    Bool :=
  match runChecker states with
  | .completed => true
  | .frozen => false
  | .crashed => false

/-
  Live dispatch loop with mutating handlers
  (WindowMessenger.onChannelMessageReceived_, else branch, refined so
  that a subscriber callback may itself call on / off on the same topic
  during the dispatch).
-/

/-- What a subscriber callback does to the subscription table of the
dispatched topic when invoked. -/
inductive Act where
  | pureA
  | onOne (c : Nat)
  | offOne (c : Nat)
  | offAll
deriving DecidableEq, Repr

/-- Dispatch-time view of the subscription table entry of the topic:
entry is listeners_[topic]; arr is the array object captured by the
const listeners binding at dispatch start; aliased records whether that
captured array object is still the one stored in the entry. -/
structure DispatchState where
  entry : Option (List Nat)
  aliased : Bool
  arr : List Nat
deriving DecidableEq, Repr

/-- Applies the action of an invoked callback to the dispatch state,
following the source of on and off: on pushes onto the existing array
(visible through the captured alias) or creates a fresh array; off with
a callback dereferences the entry (none = throws when absent) and
splices by identity; off without a callback deletes the entry, leaving
the captured array object itself untouched. -/
def applyAct : Act → DispatchState → Option DispatchState
  | .pureA, st => some st
  | .onOne c, st =>
      match st.entry with
      | some l =>
          some { entry := some (l ++ [c]), aliased := st.aliased,
                 arr := if st.aliased then st.arr ++ [c] else st.arr }
      | none => some { entry := some [c], aliased := false, arr := st.arr }
  | .offOne c, st =>
      match st.entry with
      | none => none
      | some l =>
          if l.contains c then
            some { entry := some (l.erase c), aliased := st.aliased,
                   arr := if st.aliased then st.arr.erase c else st.arr }
          else some st
  | .offAll, st =>
      match st.entry with
      | some _ => some { entry := none, aliased := false, arr := st.arr }
      | none => some st

/-- The dispatch for-loop: i indexes into the captured array, whose
length is re-read every iteration; each visited callback is invoked and
its action applied.  Returns the final state, the invoked callbacks in
order, and true when the loop exited normally (false = a callback
threw).  The fuel argument bounds the iteration count (the source loop
can run forever when callbacks keep appending); none = fuel exhausted
before the loop exited. -/
def dispatchLoop (acts : Nat → Act) :
    Nat → Nat → DispatchState → List Nat →
    Option (DispatchState × List Nat × Bool)
  | 0, _, _, _ => none
  | fuel + 1, i, st, invoked =>
      if h : i < st.arr.length then
        let cb := st.arr.get ⟨i, h⟩
        match applyAct (acts cb) st with
        | none => some (st, invoked ++ [cb], false)
        | some st1 => dispatchLoop acts fuel (i + 1) st1 (invoked ++ [cb])
      else some (st, invoked, true)

/-- Dispatch of a new message on a topic whose subscription entry is
init: a missing entry is a silent drop; otherwise the captured array is
the live entry array and the loop above runs from index 0. -/
def dispatchLive (acts : Nat → Act) (fuel : Nat) (init : Option (List Nat)) :
    Option (List Nat × Bool) :=
  match init with
  | none => some ([], true)
  | some l =>
      (dispatchLoop acts fuel 0 ⟨some l, true, l⟩ []).map
        (fun r => (r.2.1, r.2.2))

/-
  Theorems.
-/

/-- C1: after send registers a pending exchange under a fresh id, the
arrival of a reply envelope with that id removes the exchange from the
registry and resolves the stored resolver with the reply payload and a
reply sender bound to that id and the topic of the original request; a
second reply with the same id resolves nothing. -/
theorem send_then_reply_resolves_once
    (st : MessengerState) (id topic : String) (data : JVal) (resolver : Nat)
    (replyTopic : String) (replyData : JVal)
    (hfresh : jlookup st.messages_ id = none) :
    jlookup (onChannelMessageReceived (send st id topic data resolver).1
        ⟨id, replyTopic, replyData, true⟩).1.messages_ id = none ∧
    (onChannelMessageReceived (send st id topic data resolver).1
        ⟨id, replyTopic, replyData, true⟩).2 =
      [Effect.resolve resolver replyData id topic] ∧
    ∀ (replyTopic2 : String) (replyData2 : JVal),
      ((onChannelMessageReceived
          (onChannelMessageReceived (send st id topic data resolver).1
            ⟨id, replyTopic, replyData, true⟩).1
          ⟨id, replyTopic2, replyData2, true⟩).2.all
        (fun e => !e.isResolve)) = true := by
  have hlook :
      jlookup (send st id topic data resolver).1.messages_ id =
        some ⟨data, topic, resolver⟩ := by
    simp [send, jlookup_jset_self]
  have hstep :
      onChannelMessageReceived (send st id topic data resolver).1
        ⟨id, replyTopic, replyData, true⟩ =
      ({ (send st id topic data resolver).1 with
          messages_ :=
            jerase (send st id topic data resolver).1.messages_ id },
       [Effect.resolve resolver replyData id topic]) := by
    simp [onChannelMessageReceived, hlook]
  refine ⟨?_, ?_, ?_⟩
  · rw [hstep]
    exact jlookup_jerase_self _ _
  · rw [hstep]
  · intro replyTopic2 replyData2
    rw [hstep]
    have hnone :
        jlookup (jerase (send st id topic data resolver).1.messages_ id) id
          = none := jlookup_jerase_self _ _
    simp only [onChannelMessageReceived, hnone]
    cases hls :
        jlookup (send st id topic data resolver).1.listeners_ replyTopic2 with
    | none => rfl
    | some ls =>
        simp [List.all_eq_true, Effect.isResolve]

/-- Witness for C1 at a concrete request and reply. -/
theorem send_then_reply_resolves_once_witness :
    jlookup (onChannelMessageReceived
        (send initialMessengerState "i1" "t" (JVal.jnum 1) 0).1
        ⟨"i1", "rt", JVal.jnum 2, true⟩).1.messages_ "i1" = none ∧
    (onChannelMessageReceived
        (send initialMessengerState "i1" "t" (JVal.jnum 1) 0).1
        ⟨"i1", "rt", JVal.jnum 2, true⟩).2 =
      [Effect.resolve 0 (JVal.jnum 2) "i1" "t"] ∧
    ∀ (replyTopic2 : String) (replyData2 : JVal),
      ((onChannelMessageReceived
          (onChannelMessageReceived
            (send initialMessengerState "i1" "t" (JVal.jnum 1) 0).1
            ⟨"i1", "rt", JVal.jnum 2, true⟩).1
          ⟨"i1", replyTopic2, replyData2, true⟩).2.all
        (fun e => !e.isResolve)) = true :=
  send_then_reply_resolves_once initialMessengerState "i1" "t" (JVal.jnum 1) 0
    "rt" (JVal.jnum 2) rfl

/-- C4: the re-entry guards of listen and connect are dead code, because
listening_ and connecting_ are never assigned true anywhere in the
source.  Concretely: a second listen while the first is still in flight
is accepted (pending, not rejected) and registers a second window
receiver, and a second connect while the first is still connecting is
accepted and posts a second handshake broadcast. -/
theorem reentry_guards_never_fire :
    (listen (listen initialMessengerState ["https://a.com"]).1
        ["https://a.com"]).2 = CallResult.pending ∧
    (listen (listen initialMessengerState ["https://a.com"]).1
        ["https://a.com"]).1.windowReceivers =
      [["https://a.com"], ["https://a.com"]] ∧
    (connect (fun s => s)
        (connect (fun s => s) initialMessengerState (some 1) (some "*") 5).1
        (some 1) (some "*") 6).2.2 = CallResult.pending ∧
    (connect (fun s => s)
        (connect (fun s => s) initialMessengerState (some 1) (some "*") 5).1
        (some 1) (some "*") 6).2.1 =
      [Effect.windowPost 1 "topic-connect-handshake" "*"] := by
  refine ⟨rfl, rfl, rfl, rfl⟩

/-- C5: connect with a missing argument settles rejected and performs no
postMessage, but it is not side-effect free: the argument guards lack an
early return, so a MessageChannel is still created, messagePort_ is
still assigned and a port receiver is still installed before the
transmit line throws. -/
theorem connect_missing_args_mutates_state :
    ((connect (fun s => s) initialMessengerState none
        (some "https://a.com") 7).2.2 =
      CallResult.rejectedCall "Provide a valid Window context to connect to." ∧
     (connect (fun s => s) initialMessengerState none
        (some "https://a.com") 7).2.1 = [] ∧
     (connect (fun s => s) initialMessengerState none
        (some "https://a.com") 7).1.channel_ = some 7 ∧
     (connect (fun s => s) initialMessengerState none
        (some "https://a.com") 7).1.messagePort_ = some 7 ∧
     (connect (fun s => s) initialMessengerState none
        (some "https://a.com") 7).1.portReceivers = 1) ∧
    ((connect (fun s => s) initialMessengerState (some 1) none 8).2.2 =
      CallResult.rejectedCall
        "Provide an expected origin for the remote Window or provide the wildcard *." ∧
     (connect (fun s => s) initialMessengerState (some 1) none 8).2.1 = [] ∧
     (connect (fun s => s) initialMessengerState (some 1) none 8).1.channel_ =
       some 8) := by
  refine ⟨⟨rfl, rfl, rfl, rfl, rfl⟩, rfl, rfl, rfl⟩

/-- C9 counterexample: the reserved connect-handshake topic constant of
the source is not the string of the claim. -/
theorem connect_handshake_topic_cex :
    Topics.CONNECT_HANDSHAKE ≠ "connect-handshake" := by
  decide

/-- C9 amended: the reserved connect-handshake topic constant equals
"topic-connect-handshake", and the handshake broadcast posted by the
initiator carries exactly that topic. -/
theorem connect_handshake_topic_value :
    Topics.CONNECT_HANDSHAKE = "topic-connect-handshake" ∧
    (connect (fun s => s) initialMessengerState (some 1) (some "*") 2).2.1 =
      [Effect.windowPost 1 "topic-connect-handshake" "*"] :=
  ⟨rfl, rfl⟩

/-- C6: a listening messenger accepts an inbound broadcast exactly when
the normalized sender origin equals the normalized origin of some
allow-list entry and the message carries the reserved handshake topic; a
broadcast from a non-allow-listed origin, or lacking that topic, is
discarded leaving the state (receivers included) untouched. -/
theorem listen_handshake_origin_gate (norm : String → String)
    (allowedOrigins : List String) (st : MessengerState) (ev : WindowEvent) :
    ((onListenConnectionMessageReceived norm allowedOrigins st ev).2 =
        ListenRecv.accepted ↔
      ((∃ a ∈ allowedOrigins, norm a = norm ev.origin) ∧
        ev.message = some (some Topics.CONNECT_HANDSHAKE))) ∧
    ((onListenConnectionMessageReceived norm allowedOrigins st ev).2 =
        ListenRecv.discarded →
      (onListenConnectionMessageReceived norm allowedOrigins st ev).1 = st) := by
  have hall : isAllowedOrigin norm ev.origin allowedOrigins = true ↔
      ∃ a ∈ allowedOrigins, norm a = norm ev.origin := by
    simp [isAllowedOrigin, List.any_eq_true]
  unfold onListenConnectionMessageReceived
  by_cases ha : isAllowedOrigin norm ev.origin allowedOrigins
  · cases hm : ev.message with
    | none => simp [ha, hm, hall]
    | some topicField =>
        by_cases ht : topicField = some Topics.CONNECT_HANDSHAKE
        · simp [ha, hm, ht, hall.mp ha]
        · simp [ha, hm, ht]
  · simp only [Bool.not_eq_true] at ha
    constructor
    · rw [ha]
      simp only [Bool.not_false, if_pos rfl]
      constructor
      · intro h
        exact absurd h (by simp)
      · rintro ⟨hex, -⟩
        exact absurd (hall.mpr hex) (by simp [ha])
    · rw [ha]
      intro _
      rfl

/-- Witness for C6: a broadcast from an origin outside the allow-list is
discarded with the state unchanged. -/
theorem listen_handshake_origin_gate_witness :
    (onListenConnectionMessageReceived (fun s => s) ["https://a.com"]
        initialMessengerState
        ⟨"https://evil.com", some (some "topic-connect-handshake"), [4]⟩).1 =
      initialMessengerState :=
  (listen_handshake_origin_gate (fun s => s) ["https://a.com"]
      initialMessengerState
      ⟨"https://evil.com", some (some "topic-connect-handshake"), [4]⟩).2 rfl

/-- C7: a non-reply envelope (or a reply with no matching pending
exchange) is silently dropped, state untouched, when the subscriber
list of its topic is missing; otherwise every subscriber of the topic is
invoked exactly once in insertion order, each receiving the payload and
a reply sender bound to the envelope id and topic; and subscribing
appends to the end of the list, so list order is insertion order. -/
theorem dispatch_insertion_order (st : MessengerState) (e : WireMsg)
    (hnr : e.isReply = false ∨ jlookup st.messages_ e.id = none) :
    (jlookup st.listeners_ e.topic = none →
        onChannelMessageReceived st e = (st, [])) ∧
    (∀ ls, jlookup st.listeners_ e.topic = some ls →
        onChannelMessageReceived st e =
          (st, ls.map (fun cb => Effect.invoke cb e.data e.id e.topic))) ∧
    (∀ (topic : String) (cb : Nat),
        jlookup (onSubscribe st topic cb).listeners_ topic =
          some ((jlookup st.listeners_ topic).getD [] ++ [cb])) := by
  refine ⟨?_, ?_, ?_⟩
  · intro hnone
    rcases hnr with hr | hm
    · unfold onChannelMessageReceived
      rw [hr, hnone]
      cases jlookup st.messages_ e.id <;> rfl
    · unfold onChannelMessageReceived
      rw [hm, hnone]
  · intro ls hls
    rcases hnr with hr | hm
    · unfold onChannelMessageReceived
      rw [hr, hls]
      cases jlookup st.messages_ e.id <;> rfl
    · unfold onChannelMessageReceived
      rw [hm, hls]
  · intro topic cb
    unfold onSubscribe
    cases hl : jlookup st.listeners_ topic with
    | none => simp [hl, jlookup_jset_self]
    | some l => simp [hl, jlookup_jset_self]

/-- Witness for C7: one concrete drop and one concrete two-subscriber
dispatch in insertion order. -/
theorem dispatch_insertion_order_witness :
    (onChannelMessageReceived initialMessengerState
        ⟨"i", "t", JVal.jnull, false⟩ = (initialMessengerState, [])) ∧
    (onChannelMessageReceived
        (onSubscribe (onSubscribe initialMessengerState "t" 3) "t" 4)
        ⟨"i", "t", JVal.jnull, false⟩).2 =
      [Effect.invoke 3 JVal.jnull "i" "t", Effect.invoke 4 JVal.jnull "i" "t"] := by
  constructor
  · exact
      (dispatch_insertion_order initialMessengerState
        ⟨"i", "t", JVal.jnull, false⟩ (Or.inl rfl)).1 rfl
  · have h :=
      (dispatch_insertion_order
        (onSubscribe (onSubscribe initialMessengerState "t" 3) "t" 4)
        ⟨"i", "t", JVal.jnull, false⟩ (Or.inl rfl)).2.1 [3, 4] rfl
    rw [h]
    rfl

/-- Helper: off never changes connected_. -/
theorem off_preserves_connected (st : MessengerState) (topic : String)
    (cb : Option Nat) (st1 : MessengerState) (h : off st topic cb = some st1) :
    st1.connected_ = st.connected_ := by
  cases cb with
  | some c =>
      cases hl : jlookup st.listeners_ topic with
      | none =>
          rw [show off st topic (some c) = none by simp [off, hl]] at h
          cases h
      | some l =>
          by_cases hc : c ∈ l
          · have heq : off st topic (some c) = some { st with listeners_ := jset st.listeners_ topic (l.erase c) } := by
              simp [off, hl, hc]
            rw [heq] at h
            cases h
            rfl
          · have heq : off st topic (some c) = some st := by
              simp [off, hl, hc]
            rw [heq] at h
            cases h
            rfl
  | none =>
      cases hl : jlookup st.listeners_ topic with
      | none =>
          have heq : off st topic none = some st := by simp [off, hl]
          rw [heq] at h
          cases h
          rfl
      | some l =>
          have heq : off st topic none = some { st with listeners_ := jerase st.listeners_ topic } := by
            simp [off, hl]
          rw [heq] at h
          cases h
          rfl

/-- Helper: an internal transition other than finishListenHandshake
keeps connected_ unchanged and emits no handshake acknowledgment. -/
theorem listenerStep_no_ack (st : MessengerState) (ev : LEvent)
    (h : ev.isFinish = false) :
    (listenerStep st ev).1.connected_ = st.connected_ ∧
    ((listenerStep st ev).2.all (fun e => !e.isHandshakeAck)) = true := by
  cases ev with
  | channelMsg e =>
      simp only [listenerStep, onChannelMessageReceived]
      cases jlookup st.messages_ e.id with
      | some ex =>
          cases e.isReply with
          | true => exact ⟨rfl, rfl⟩
          | false =>
              cases jlookup st.listeners_ e.topic with
              | none => exact ⟨rfl, rfl⟩
              | some ls =>
                  refine ⟨rfl, ?_⟩
                  simp [List.all_eq_true, Effect.isHandshakeAck]
      | none =>
          cases e.isReply with
          | true =>
              cases jlookup st.listeners_ e.topic with
              | none => exact ⟨rfl, rfl⟩
              | some ls =>
                  refine ⟨rfl, ?_⟩
                  simp [List.all_eq_true, Effect.isHandshakeAck]
          | false =>
              cases jlookup st.listeners_ e.topic with
              | none => exact ⟨rfl, rfl⟩
              | some ls =>
                  refine ⟨rfl, ?_⟩
                  simp [List.all_eq_true, Effect.isHandshakeAck]
  | onSub t cb =>
      simp only [listenerStep, onSubscribe]
      cases jlookup st.listeners_ t with
      | none => exact ⟨rfl, rfl⟩
      | some l => exact ⟨rfl, rfl⟩
  | offSub t cb =>
      simp only [listenerStep]
      cases hoff : off st t cb with
      | none => exact ⟨rfl, rfl⟩
      | some st1 => exact ⟨off_preserves_connected st t cb st1 hoff, rfl⟩
  | finishHandshake freshId resolver => simp [LEvent.isFinish] at h

/-- C2: after a suspended listen handshake (delayConnectHandshake set)
is accepted, the messenger sends nothing and stays unconnected; along
any sequence of internal transitions that does not include
finishListenHandshake, connected_ remains false and no CONNECT_HANDSHAKE
acknowledgment is posted; invoking finishListenHandshake posts exactly
the acknowledgment and sets connected_. -/
theorem suspended_handshake_gate :
    (∀ (st : MessengerState) (freshId : String) (resolver : Nat),
        listenThen st true freshId resolver = (st, [])) ∧
    (∀ (st : MessengerState) (evs : List LEvent),
        st.connected_ = false →
        (∀ ev ∈ evs, ev.isFinish = false) →
        (runTrace st evs).1.connected_ = false ∧
        ((runTrace st evs).2.all (fun e => !e.isHandshakeAck)) = true) ∧
    (∀ (st : MessengerState) (freshId : String) (resolver : Nat),
        (finishListenHandshake st freshId resolver).1.connected_ = true ∧
        (finishListenHandshake st freshId resolver).2 =
          [Effect.portPost ⟨freshId, Topics.CONNECT_HANDSHAKE, JVal.jnull,
            false⟩] ∧
        Effect.isHandshakeAck
          (Effect.portPost ⟨freshId, Topics.CONNECT_HANDSHAKE, JVal.jnull,
            false⟩) = true) := by
  refine ⟨fun st freshId resolver => rfl, ?_, ?_⟩
  · intro st evs
    induction evs generalizing st with
    | nil => intro hconn _; exact ⟨hconn, rfl⟩
    | cons ev rest ih =>
        intro hconn hall
        have h1 := listenerStep_no_ack st ev (hall ev (by simp))
        have h2 := ih (listenerStep st ev).1 (h1.1.trans hconn)
          (fun e he => hall e (by simp [he]))
        constructor
        · simpa [runTrace] using h2.1
        · simp [runTrace, List.all_append, h1.2, h2.2]
  · intro st freshId resolver
    refine ⟨rfl, rfl, ?_⟩
    simp [Effect.isHandshakeAck]

/-- Witness for C2: a concrete finish-free trace from a fresh messenger
keeps it unconnected and posts no acknowledgment. -/
theorem suspended_handshake_gate_witness :
    (runTrace initialMessengerState
        [LEvent.onSub "t" 3,
         LEvent.channelMsg ⟨"i", "t", JVal.jnull, false⟩]).1.connected_ =
      false ∧
    ((runTrace initialMessengerState
        [LEvent.onSub "t" 3,
         LEvent.channelMsg ⟨"i", "t", JVal.jnull, false⟩]).2.all
      (fun e => !e.isHandshakeAck)) = true :=
  suspended_handshake_gate.2.1 initialMessengerState
    [LEvent.onSub "t" 3, LEvent.channelMsg ⟨"i", "t", JVal.jnull, false⟩]
    rfl (by decide)

/-- Helper: a prefix of targets that all evaluate unsubscribed followed
by a target that evaluates subscribed freezes run forever. -/
theorem runChecker_append_frozen (pre : List SubscriptionStateMessage)
    (s : SubscriptionStateMessage) (post : List SubscriptionStateMessage)
    (hall : ∀ t ∈ pre, isSubscribedToAltOrigin t = some false)
    (hs : isSubscribedToAltOrigin s = some true) :
    runChecker (pre ++ s :: post) = RunOutcome.frozen := by
  induction pre with
  | nil => simp [runChecker, hs]
  | cons t rest ih =>
      have ht := hall t (by simp)
      have ih2 := ih (fun x hx => hall x (by simp [hx]))
      simp [runChecker, ht, ih2]

/-- Helper: when every target evaluates unsubscribed, run completes. -/
theorem runChecker_all_false (states : List SubscriptionStateMessage)
    (hall : ∀ t ∈ states, isSubscribedToAltOrigin t = some false) :
    runChecker states = RunOutcome.completed := by
  induction states with
  | nil => rfl
  | cons t rest ih =>
      have ht := hall t (by simp)
      have ih2 := ih (fun x hx => hall x (by simp [hx]))
      simp [runChecker, ht, ih2]

/-- C3: a probe target evaluates as subscribed exactly when all five
conjuncts hold (permission granted, controlling worker, activated state,
positive subscription flag, worker URL containing the expected
fragment); the first subscribed target freezes run forever and the outer
suspended handshake is never finished; when every target fails the
predicate, run completes and the caller finishes the handshake. -/
theorem prober_freeze_characterization :
    (∀ s : SubscriptionStateMessage,
        isSubscribedToAltOrigin s = some true ↔
          (s.notificationPermission = "granted" ∧
           s.serviceWorkerIsControllingFrame = some true ∧
           s.serviceWorkerState = some "activated" ∧
           s.serviceWorkerSubscriptionState = some true ∧
           ∃ u, s.serviceWorkerUrl = some u ∧
             strContains u "OneSignalSDKWorker.js" = true)) ∧
    (∀ (pre : List SubscriptionStateMessage) (s : SubscriptionStateMessage)
        (post : List SubscriptionStateMessage),
        (∀ t ∈ pre, isSubscribedToAltOrigin t = some false) →
        isSubscribedToAltOrigin s = some true →
        runChecker (pre ++ s :: post) = RunOutcome.frozen ∧
        outerRunFinishesHandshake (pre ++ s :: post) = false) ∧
    (∀ states : List SubscriptionStateMessage,
        (∀ t ∈ states, isSubscribedToAltOrigin t = some false) →
        runChecker states = RunOutcome.completed ∧
        outerRunFinishesHandshake states = true) := by
  refine ⟨?_, ?_, ?_⟩
  · intro s
    constructor
    · intro h
      unfold isSubscribedToAltOrigin at h
      split_ifs at h with h1 h2 h3 h4
      · cases hu : s.serviceWorkerUrl with
        | none => rw [hu] at h; exact absurd h (by simp)
        | some u =>
            rw [hu] at h
            simp only [Option.some.injEq] at h
            exact ⟨h1, h2, h3, h4, u, rfl, h⟩
      all_goals simp at h
    · rintro ⟨h1, h2, h3, h4, u, hu, hc⟩
      unfold isSubscribedToAltOrigin
      rw [if_pos h1, if_pos h2, if_pos h3, if_pos h4, hu]
      simp [hc]
  · intro pre s post hall hs
    have hrun := runChecker_append_frozen pre s post hall hs
    exact ⟨hrun, by simp [outerRunFinishesHandshake, hrun]⟩
  · intro states hall
    have hrun := runChecker_all_false states hall
    exact ⟨hrun, by simp [outerRunFinishesHandshake, hrun]⟩

/-- Witness for C3: a fully subscribed state report evaluates true and
freezes a one-target run; the empty target list completes and lets the
caller finish the handshake. -/
theorem prober_freeze_characterization_witness :
    isSubscribedToAltOrigin
      ⟨"granted", some "https://a.com/OneSignalSDKWorker.js", some "activated",
        some true, some true⟩ = some true ∧
    runChecker
      [⟨"granted", some "https://a.com/OneSignalSDKWorker.js",
        some "activated", some true, some true⟩] = RunOutcome.frozen ∧
    outerRunFinishesHandshake
      [⟨"granted", some "https://a.com/OneSignalSDKWorker.js",
        some "activated", some true, some true⟩] = false ∧
    runChecker [] = RunOutcome.completed ∧
    outerRunFinishesHandshake [] = true := by
  have hs : isSubscribedToAltOrigin
      ⟨"granted", some "https://a.com/OneSignalSDKWorker.js", some "activated",
        some true, some true⟩ = some true :=
    (prober_freeze_characterization.1 _).mpr
      ⟨rfl, rfl, rfl, rfl, "https://a.com/OneSignalSDKWorker.js", rfl,
        by decide⟩
  have hfroze := prober_freeze_characterization.2.1 []
    ⟨"granted", some "https://a.com/OneSignalSDKWorker.js", some "activated",
      some true, some true⟩ [] (by simp) hs
  have hdone := prober_freeze_characterization.2.2 [] (by simp)
  exact ⟨hs, by simpa using hfroze.1, by simpa using hfroze.2,
    hdone.1, hdone.2⟩

/-- C8 counterexample: dispatch does not iterate a snapshot — with
subscriber list [0, 1] where callback 0 unsubscribes callback 1 during
dispatch, only [0] is invoked instead of the snapshot [0, 1]. -/
theorem dispatch_snapshot_cex :
    dispatchLive (fun n => if n = 0 then Act.offOne 1 else Act.pureA) 5
        (some [0, 1]) = some ([0], true) ∧
    some (([0] : List Nat), true) ≠ some (([0, 1] : List Nat), true) :=
  ⟨rfl, by decide⟩

/-- C8 amended: dispatch iterates the live subscriber array by index, so
a handler that unsubscribes a not-yet-visited callback prevents its
invocation, and a handler that subscribes a new callback causes it to be
invoked in the same dispatch. -/
theorem dispatch_live_mutation (acts acts2 : Nat → Act) (a b c : Nat)
    (hab : a ≠ b)
    (ha : acts a = Act.offOne b)
    (h2a : acts2 a = Act.onOne c) (h2b : acts2 b = Act.pureA)
    (h2c : acts2 c = Act.pureA) :
    dispatchLive acts 2 (some [a, b]) = some ([a], true) ∧
    dispatchLive acts2 4 (some [a, b]) = some ([a, b, c], true) := by
  have hba : (b == a) = false := by
    simp [Ne.symm hab]
  have habz : (a == b) = false := by
    simp [hab]
  constructor
  · simp [dispatchLive, dispatchLoop, applyAct, ha, List.contains,
      List.elem, hba, List.erase, habz]
  · simp [dispatchLive, dispatchLoop, applyAct, h2a, h2b, h2c]

/-- Witness for the amended C8 at concrete callbacks. -/
theorem dispatch_live_mutation_witness :
    dispatchLive (fun n => if n = 0 then Act.offOne 1 else Act.pureA) 2
        (some [0, 1]) = some ([0], true) ∧
    dispatchLive (fun n => if n = 0 then Act.onOne 2 else Act.pureA) 4
        (some [0, 1]) = some ([0, 1, 2], true) :=
  dispatch_live_mutation (fun n => if n = 0 then Act.offOne 1 else Act.pureA)
    (fun n => if n = 0 then Act.onOne 2 else Act.pureA) 0 1 2
    (by decide) rfl rfl rfl rfl

/-- C10: off with a callback on a topic that has no subscriber list
(never subscribed, or cleared by a wildcard off) throws, because the
code dereferences the absent list; only the no-callback branch guards
against a missing list and is a no-op there. -/
theorem off_missing_list_throws (st : MessengerState) (topic : String)
    (c : Nat) (h : jlookup st.listeners_ topic = none) :
    off st topic (some c) = none ∧
    off st topic none = some st ∧
    (∀ (st2 : MessengerState) (l : List Nat),
        jlookup st2.listeners_ topic = some l →
        ∀ st3, off st2 topic none = some st3 →
          off st3 topic (some c) = none) := by
  refine ⟨?_, ?_, ?_⟩
  · unfold off
    rw [h]
  · unfold off
    rw [h]
  · intro st2 l hl st3 hw
    unfold off at hw
    rw [hl] at hw
    simp only [Option.some.injEq] at hw
    unfold off
    rw [← hw]
    simp [jlookup_jerase_self]

/-- Witness for C10: off with a callback on the empty table throws, off
without a callback there is a no-op, and a wildcard off followed by off
with a callback throws. -/
theorem off_missing_list_throws_witness :
    off initialMessengerState "t" (some 3) = none ∧
    off initialMessengerState "t" none = some initialMessengerState ∧
    (∀ (st2 : MessengerState) (l : List Nat),
        jlookup st2.listeners_ "t" = some l →
        ∀ st3, off st2 "t" none = some st3 →
          off st3 "t" (some 3) = none) :=
  off_missing_list_throws initialMessengerState "t" 3 rfl
